import Mathlib

/-!
Shallow embedding of the curve-fitting / statistical-validation / uncertainty engine
of the VaLiA_DKD_R_6-1 repository (src/services/mathUtils.ts, second and authoritative
version of the module, and src/services/calibrationLogic.ts, calculateResults).

JS `number` arithmetic is embedded as arithmetic in a linear ordered field,
instantiated with ℝ in the real-number theorems.  The transcendental
primitives of the JS runtime
(Math.log, Math.exp, Math.sqrt, Math.pow with non-integer exponent) are a
parameter `JsMath` of every definition that calls them; number-to-string
formatting (toFixed / toExponential / parseFloat∘toFixed) is a parameter
`JsFmt`.  Real-number theorems instantiate `JsMath` with Real.log, Real.exp,
Real.sqrt and Real.rpow.  Division by zero, which JS turns into NaN/Infinity,
is the total field division of Lean (x / 0 = 0); places where the source can
actually divide by zero are flagged in comments and analysed by the C4 theorem.
-/

namespace VaLiA

/-- The CurveModel union of src (types.ts plus the 'piecewise_mixed' member used
by the second mathUtils version). -/
inductive CurveModel
  | linear_pearson
  | linear_theil_sen
  | piecewise_linear
  | polynomial_2nd
  | polynomial_3rd
  | power
  | exponential
  | logarithmic
  | piecewise_mixed
deriving DecidableEq

/-- Transcendental primitives of the JS Math object used by the engine. -/
structure JsMath (α : Type*) where
  log : α → α
  exp : α → α
  sqrt : α → α
  rpow : α → α → α

/-- Number formatting primitives: parseFloat(x.toFixed(d)), x.toFixed(d) and
x.toExponential(d).  They only feed display fields (statisticValue, equation and
step strings), never the numeric pipeline. -/
structure JsFmt (α : Type*) where
  fixNum : Nat → α → α
  fixStr : Nat → α → String
  expStr : Nat → α → String

/-- ANOVA record of a regression (types.ts AnovaResult, numeric fields). -/
structure AnovaResult (α : Type*) where
  sse : α
  ssr : α
  sst : α
  dfReg : Int
  dfRes : Int
  msReg : α
  msRes : α
  fStatistic : α
deriving DecidableEq

/-- One statistical validation step (types.ts ValidationStepResult).
`isNotApplicable` is an optional field in TS, hence Option Bool. -/
structure ValidationStepResult (α : Type*) where
  passed : Bool
  label : String
  statisticName : String
  statisticValue : α
  criticalValue : α
  details : String
  isNotApplicable : Option Bool := none
deriving DecidableEq

/-- The extended validation bundle built by the second calculateRegression. -/
structure RegressionValidation (α : Type*) where
  correlation : ValidationStepResult α
  normalityX : ValidationStepResult α
  normalityY : ValidationStepResult α
  normalityResiduals : ValidationStepResult α
  modelSignificance : ValidationStepResult α
  independence : ValidationStepResult α
  mandelLinearity : Option (ValidationStepResult α) := none
deriving DecidableEq

/-- Model quality verdict. -/
inductive ModelQuality
  | EXCELLENT
  | GOOD
  | POOR
  | INVALID
deriving DecidableEq

/-- One side of a piecewise_mixed fit (subModels.low / subModels.high). -/
structure SubModelSide (α : Type*) where
  type : CurveModel
  coeffs : List α
  limit : α
deriving DecidableEq

/-- The subModels descriptor of a piecewise_mixed RegressionResult. -/
structure SubModelsInfo (α : Type*) where
  low : SubModelSide α
  high : SubModelSide α
deriving DecidableEq

/-- The RegressionResult record (types.ts), with `n` the used sample size.
Optional TS fields are Options; `isParametricValid` is always set by the
authoritative calculateRegression, so it is a plain Bool here. -/
structure RegressionResult (α : Type*) where
  coefficients : List α
  rSquared : α
  residualStdDev : α
  equationString : String
  validationSteps : String
  extendedValidation : Option (RegressionValidation α) := none
  xBar : α
  sumSqDiffX : α
  n : Nat
  durbinWatson : α
  anova : Option (AnovaResult α) := none
  isParametricValid : Bool
  aic : α
  aicc : α
  bic : α
  modelQuality : ModelQuality
  recommendationText : String
  isBestFit : Option Bool := none
  subModels : Option (SubModelsInfo α) := none
deriving DecidableEq

variable {α : Type*} [LinearOrderedField α]

/-- Critical two-tailed 95% Student-t value, exact lookup table of the source. -/
def getTStudentCrit (df : Int) : α :=
  if df ≤ 1 then 12706/1000 else if df ≤ 2 then 4303/1000 else if df ≤ 3 then 3182/1000
  else if df ≤ 4 then 2776/1000 else if df ≤ 5 then 2571/1000 else if df ≤ 10 then 2228/1000
  else if df ≤ 20 then 2086/1000 else if df ≤ 60 then 2 else 196/100

/-- Critical F value at alpha = 0.05, exact lookup table of the source
(second mathUtils version: only the df1 = 1 column, else 3.00). -/
def getFCrit (df2 : Int) (df1 : Int) : α :=
  if df1 = 1 then
    if df2 ≤ 1 then 16145/100 else if df2 ≤ 2 then 1851/100 else if df2 ≤ 3 then 1013/100
    else if df2 ≤ 4 then 771/100 else if df2 ≤ 5 then 661/100 else if df2 ≤ 10 then 496/100
    else if df2 ≤ 20 then 435/100 else if df2 ≤ 60 then 4 else 384/100
  else 3

/-- Durbin-Watson statistic of a residual list. -/
def calculateDurbinWatson (residuals : List α) : α :=
  if residuals.length < 2 then 0
  else
    let num := (residuals.zip residuals.tail).foldl (fun s p => s + (p.2 - p.1) ^ 2) 0
    let den := residuals.foldl (fun s r => s + r ^ 2) 0
    if den = 0 then 0 else num / den

/-- AIC, AICc and BIC (second mathUtils version: SSE floored at 1e-15 before the
logarithm).  Returns (aic, aicc, bic). -/
def calculateAIC (m : JsMath α) (n k sse : α) : α × α × α :=
  let sse' := if sse ≤ 1 / 1000000000000000 then 1 / 1000000000000000 else sse
  let aic := n * m.log (sse' / n) + 2 * k
  let aicc := aic + (2 * k * (k + 1)) / (n - k - 1)
  let bic := n * m.log (sse' / n) + k * m.log n
  (aic, aicc, bic)

/-- Row exchange of Gaussian partial pivoting: entries with column index ≥ i are
exchanged between the two rows (columns < i are left untouched, as in the source
loop `for k = i; k < n`). -/
def swapFrom (r1 r2 : List α) (i : Nat) : List α × List α :=
  (r1.take i ++ r2.drop i, r2.take i ++ r1.drop i)

/-- Pivot search of solveLinearSystem: the row index k ≥ i maximising |A[k][i]|,
scanning k upward and keeping the first maximum (strict improvement only). -/
def pivotRow (A : List (List α)) (i : Nat) : Nat :=
  (List.range A.length).foldl
    (fun best k =>
      if i + 1 ≤ k ∧ |((A.getD k []).getD i 0)| > |((A.getD best []).getD i 0)| then k else best)
    i

/-- Elimination update of one row below the pivot: column i is set to 0, columns
j > i get `+ c * pivot[j]`, columns j < i are untouched. -/
def elimRow (pivot row : List α) (i : Nat) (c : α) : List α :=
  row.mapIdx fun j a => if j < i then a else if j = i then 0 else a + c * pivot.getD j 0

/-- One forward-elimination step (pivot search, partial row swap, elimination of
the rows below) of solveLinearSystem. -/
def fwdStep (st : List (List α) × List α) (i : Nat) : List (List α) × List α :=
  let A := st.1
  let B := st.2
  let maxRow := pivotRow A i
  let ri := A.getD i []
  let rm := A.getD maxRow []
  let sw := swapFrom ri rm i
  let A1 := (A.set i sw.1).set maxRow sw.2
  let B1 := (B.set i (B.getD maxRow 0)).set maxRow (B.getD i 0)
  let prow := A1.getD i []
  let pivot := prow.getD i 0
  let A2 := A1.mapIdx fun k row =>
    if k ≤ i then row else elimRow prow row i (-(row.getD i 0) / pivot)
  let B2 := B1.mapIdx fun k b =>
    if k ≤ i then b else b + (-((A1.getD k []).getD i 0) / pivot) * B1.getD i 0
  (A2, B2)

/-- Back substitution of solveLinearSystem. -/
def backSub (A : List (List α)) (B : List α) : List α :=
  let n := B.length
  ((List.range n).reverse).foldl
    (fun x i =>
      let s := (List.range n).foldl
        (fun s j => if i < j then s + (A.getD i []).getD j 0 * x.getD j 0 else s) 0
      x.set i ((B.getD i 0 - s) / (A.getD i []).getD i 0))
    (List.replicate n 0)

/-- Gaussian elimination with partial pivoting (solveLinearSystem).  The source
mutates A and B in place; here the updated matrices are threaded functionally.
A zero pivot (singular normal-equations matrix) divides by zero: NaN in JS,
totalised as 0 here — see the C4 analysis. -/
def solveLinearSystem (A : List (List α)) (B : List α) : List α :=
  let fin := (List.range B.length).foldl fwdStep (A, B)
  backSub fin.1 fin.2

/-- Abramowitz-Stegun erf approximation of the source. -/
def erf (m : JsMath α) (x : α) : α :=
  let a1 : α := 254829592 / 1000000000
  let a2 : α := -(284496736 / 1000000000)
  let a3 : α := 1421413741 / 1000000000
  let a4 : α := -(1453152027 / 1000000000)
  let a5 : α := 1061405429 / 1000000000
  let p : α := 3275911 / 10000000
  let sign : α := if x < 0 then -1 else 1
  let x' := |x|
  let t := 1 / (1 + p * x')
  let y := 1 - (((((a5 * t + a4) * t) + a3) * t + a2) * t + a1) * t * m.exp (-(x' * x'))
  sign * y

/-- Normal CDF via erf (Math.SQRT2 is sqrt 2). -/
def normalCDF (m : JsMath α) (x mean std : α) : α :=
  let z := (x - mean) / (std * m.sqrt 2)
  (1 / 2) * (1 + erf m z)

/-- JS Array.prototype.sort with an ascending numeric comparator. -/
def jsSort (l : List α) : List α := l.insertionSort (· ≤ ·)

/-- Anderson-Darling normality test (small-sample corrected, critical 0.752). -/
def calculateAndersonDarling (m : JsMath α) (f : JsFmt α) (data : List α) :
    ValidationStepResult α :=
  let n := data.length
  if n < 3 then
    { passed := false, label := "Anderson-Darling", statisticName := "A²",
      statisticValue := 0, criticalValue := 0, details := "N insuficiente (<3)" }
  else
    let mean := data.sum / (n : α)
    let variance := (data.foldl (fun s b => s + (b - mean) ^ 2) 0) / ((n : α) - 1)
    let std := m.sqrt variance
    let sorted := jsSort data
    let clamp := fun (c : α) =>
      let c1 := if c ≤ 0 then 1 / 1000000000000000 else c
      if c1 ≥ 1 then 1 - 1 / 1000000000000000 else c1
    let sum := (List.range n).foldl
      (fun s i =>
        let cdfi := clamp (normalCDF m (sorted.getD i 0) mean std)
        let cdfr := clamp (normalCDF m (sorted.getD (n - 1 - i) 0) mean std)
        s + (2 * ((i : α) + 1) - 1) * (m.log cdfi + m.log (1 - cdfr)))
      0
    let A2 := -(n : α) - sum / (n : α)
    let A2adj := A2 * (1 + (75 / 100) / (n : α) + (225 / 100) / ((n : α) * (n : α)))
    let critical : α := 752 / 1000
    { passed := decide (A2adj < critical),
      label := "Prueba de Normalidad (Anderson-Darling)", statisticName := "A²*",
      statisticValue := f.fixNum 4 A2adj, criticalValue := critical,
      details := if A2adj < critical then "Distribución Normal" else "No Normal" }

/-- Rank assignment pass of getRanks: walks the value-sorted (value, index) list,
giving every run of equal values the averaged rank (i+j)/2 + 1.  `fuel` bounds
the recursion by the list length (the source's while loop always advances). -/
def rankPassAux (fuel : Nat) (i : Nat) : List (α × Nat) → List (Nat × α)
  | [] => []
  | (v, idx) :: rest =>
    match fuel with
    | 0 => []
    | fuel + 1 =>
      let grp := rest.takeWhile (fun p => p.1 = v)
      let j := i + grp.length
      let rank := ((i : α) + (j : α)) / 2 + 1
      ((idx, rank) :: grp.map fun p => (p.2, rank))
        ++ rankPassAux fuel (j + 1) (rest.drop grp.length)

/-- getRanks of calculateSpearmanRank: average ranks with ties. -/
def getRanks (arr : List α) : List α :=
  let n := arr.length
  let sorted := (arr.enum.map fun p => (p.2, p.1)).insertionSort (fun p q => p.1 ≤ q.1)
  (rankPassAux n 0 sorted).foldl (fun acc p => acc.set p.1 p.2) (List.replicate n 0)

/-- Spearman rank correlation step (non-parametric substitute for Theil-Sen). -/
def calculateSpearmanRank (m : JsMath α) (f : JsFmt α) (x y : List α) :
    ValidationStepResult α :=
  let n := x.length
  if n < 3 then
    { passed := false, label := "Corr. Spearman", statisticName := "rho",
      statisticValue := 0, criticalValue := 0, details := "N < 3",
      isNotApplicable := some false }
  else
    let xRanks := getRanks x
    let yRanks := getRanks y
    let d2Sum := (List.range n).foldl
      (fun s i => s + (xRanks.getD i 0 - yRanks.getD i 0) ^ 2) 0
    let rho := 1 - (6 * d2Sum) / ((n : α) * ((n : α) * (n : α) - 1))
    let tCalc := |rho| * m.sqrt (((n : α) - 2) / (1 - rho * rho))
    let tCrit : α := getTStudentCrit ((n : Int) - 2)
    let passed := decide (tCalc > tCrit)
    { passed := passed, label := "Correlación de Spearman (No Paramétrica)",
      statisticName := "rho", statisticValue := f.fixNum 4 rho, criticalValue := tCrit,
      details := if passed
        then "Asociación monótona significativa (t=" ++ f.fixStr 2 tCalc ++ ")"
        else "Sin asociación significativa",
      isNotApplicable := some false }

/-- Pearson-correlation significance step (t transform). -/
def calculateCorrelationSignificance (m : JsMath α) (f : JsFmt α) (r : α) (n : Nat) :
    ValidationStepResult α :=
  if n < 3 then
    { passed := false, label := "Significancia Correlación", statisticName := "t",
      statisticValue := 0, criticalValue := 0, details := "N insuficiente" }
  else if |r| ≥ 999999 / 1000000 then
    { passed := true, label := "Correlación", statisticName := "t",
      statisticValue := 999, criticalValue := 0, details := "Correlación perfecta" }
  else
    let tCalc := |r| * m.sqrt ((n : α) - 2) / m.sqrt (1 - r * r)
    let tCrit : α := getTStudentCrit ((n : Int) - 2)
    let passed := decide (tCalc > tCrit)
    { passed := passed, label := "Prueba de Correlación (t-Student)",
      statisticName := "t_calc", statisticValue := f.fixNum 4 tCalc,
      criticalValue := tCrit,
      details := if passed then "Significativa" else "No Significativa" }

/-- Residual-independence step: Pearson correlation between fitted values and
residuals, passing when the t statistic is below the critical value. -/
def calculateIndependenceTest (m : JsMath α) (f : JsFmt α) (yPred residuals : List α) :
    ValidationStepResult α :=
  let n := yPred.length
  if n < 3 then
    { passed := false, label := "Independencia Residuos", statisticName := "t",
      statisticValue := 0, criticalValue := 0, details := "N insuficiente" }
  else
    let meanY := yPred.sum / (n : α)
    let meanR := residuals.sum / (n : α)
    let num := (List.range n).foldl
      (fun s i => s + (yPred.getD i 0 - meanY) * (residuals.getD i 0 - meanR)) 0
    let den1 := (List.range n).foldl (fun s i => s + (yPred.getD i 0 - meanY) ^ 2) 0
    let den2 := (List.range n).foldl (fun s i => s + (residuals.getD i 0 - meanR) ^ 2) 0
    let r := if den1 > 0 ∧ den2 > 0 then num / m.sqrt (den1 * den2) else 0
    let tCalc := |r| * m.sqrt ((n : α) - 2) /
      m.sqrt (if 1 - r * r = 0 then 1 else 1 - r * r)
    let tCrit : α := getTStudentCrit ((n : Int) - 2)
    let passed := decide (tCalc < tCrit)
    { passed := passed, label := "Independencia (Residuos vs Ajuste)",
      statisticName := "t_corr", statisticValue := f.fixNum 4 tCalc,
      criticalValue := tCrit,
      details := if passed then "Independientes" else "Dependientes" }

/-- The literal identifier of a model family, as TS string-interpolates it. -/
def cmName : CurveModel → String
  | .linear_pearson => "linear_pearson"
  | .linear_theil_sen => "linear_theil_sen"
  | .piecewise_linear => "piecewise_linear"
  | .polynomial_2nd => "polynomial_2nd"
  | .polynomial_3rd => "polynomial_3rd"
  | .power => "power"
  | .exponential => "exponential"
  | .logarithmic => "logarithmic"
  | .piecewise_mixed => "piecewise_mixed"

/-- Guard `type === 'power' || type === 'logarithmic'` (x log-transform). -/
def usesLogX : CurveModel → Bool
  | .power => true
  | .logarithmic => true
  | _ => false

/-- Guard `type === 'power' || type === 'exponential'` (y log-transform and
exp back-transform of the intercept). -/
def usesLogY : CurveModel → Bool
  | .power => true
  | .exponential => true
  | _ => false

/-- Guard `type === 'linear_theil_sen'` (the non-parametric flag). -/
def isTheil : CurveModel → Bool
  | .linear_theil_sen => true
  | _ => false

/-- Guard `type === 'linear_pearson'` (the Mandel-test gate). -/
def isLinear : CurveModel → Bool
  | .linear_pearson => true
  | _ => false

/-- Domain filtering of calculateRegression: indices kept for the family
(logarithmic needs x > 0, power needs x > 0 and y > 0, exponential needs y > 0;
the source marks dropped indices with -1 and filters them, embedded as Options;
the per-family conditions of the source's single filter map are split into one
match arm per family). -/
def dataFilter (x y : List α) (type : CurveModel) : List Nat :=
  let all := List.range x.length
  match type with
  | .logarithmic =>
    (all.map fun i => if x.getD i 0 ≤ 0 then none else some i).reduceOption
  | .power =>
    (all.map fun i => if x.getD i 0 ≤ 0 ∨ y.getD i 0 ≤ 0 then none else some i).reduceOption
  | .exponential =>
    (all.map fun i => if y.getD i 0 ≤ 0 then none else some i).reduceOption
  | _ => all

/-- The N < 3 sentinel result of calculateRegression, returned instead of
raising on insufficient data. -/
def sentinelResult : RegressionResult α :=
  { coefficients := [0], rSquared := 0, residualStdDev := 0,
    equationString := "Datos insuficientes (N<3)", validationSteps := "Error: N < 3",
    xBar := 0, sumSqDiffX := 1, n := 0, durbinWatson := 0, isParametricValid := false,
    aic := 9999, aicc := 9999, bic := 9999, modelQuality := ModelQuality.INVALID,
    recommendationText := "Datos Insuficientes" }

/-- Horner-free polynomial evaluation as in the source
(coeffs.reduce((acc, c, p) => acc + c * x^p, 0)). -/
def polyEval (coeffs : List α) (x : α) : α :=
  coeffs.enum.foldl (fun acc p => acc + p.2 * x ^ p.1) 0

/-- All pairwise Theil-Sen slopes (y_j - y_i)/(x_j - x_i) over i < j with
x_j ≠ x_i, in the source's enumeration order. -/
def pairwiseSlopes (x y : List α) : List α :=
  (List.range x.length).flatMap fun i =>
    (List.range x.length).filterMap fun j =>
      if i < j ∧ x.getD j 0 ≠ x.getD i 0 then
        some ((y.getD j 0 - y.getD i 0) / (x.getD j 0 - x.getD i 0))
      else none

/-- Numerator of the least-squares slope (n·Σxy − Σx·Σy), exactly as written in
the source's simple linear branch. -/
def lsqSlopeNum (x y : List α) : α :=
  (x.length : α) * ((x.zip y).foldl (fun s p => s + p.1 * p.2) 0) - x.sum * y.sum

/-- Denominator of the least-squares slope (n·Σx² − (Σx)²).  The source divides
by this without a guard; when every x coincides it is 0 and JS produces NaN. -/
def lsqSlopeDen (x : List α) : α :=
  (x.length : α) * (x.foldl (fun s xi => s + xi * xi) 0) - x.sum * x.sum

/-- Placeholder validation step for the Mandel parameter of calls that disable
the Mandel test; never consulted on those paths. -/
def unusedVSR : ValidationStepResult α :=
  { passed := false, label := "", statisticName := "", statisticValue := 0,
    criticalValue := 0, details := "" }

/-- Polynomial branch of the standard-models path: normal equations built from
power sums, solved by Gaussian elimination.  Returns (coefficients, fitted
values, residuals, numParams, equation string). -/
def polyFitB (f : JsFmt α) (xCalc yCalc : List α) (order : Nat) :
    List α × List α × List α × Nat × String :=
  let mm := order + 1
  let XSums := (List.range (2 * order + 1)).map fun i =>
    xCalc.foldl (fun s xi => s + xi ^ i) 0
  let YSums := (List.range mm).map fun i =>
    (xCalc.zip yCalc).foldl (fun s p => s + p.1 ^ i * p.2) 0
  let A := (List.range mm).map fun i => (List.range mm).map fun j => XSums.getD (i + j) 0
  let coeffs := solveLinearSystem A YSums
  let yPreds := xCalc.map (polyEval coeffs)
  let residuals := (yCalc.zip yPreds).map fun p => p.1 - p.2
  let eqStr := "y = " ++ String.join (coeffs.enum.map fun p =>
    if p.1 = 0 then f.expStr 3 p.2
    else
      let vstr := f.expStr 3 |p.2|
      let sgn := if p.2 ≥ 0 then " + " else " - "
      if p.1 = 1 then sgn ++ vstr ++ "x" else sgn ++ vstr ++ "x^" ++ toString p.1)
  (coeffs, yPreds, residuals, order + 1, eqStr)

/-- Theil-Sen branch of the standard-models path: the slope is the element at
index ⌊count/2⌋ of the ascending-sorted pairwise slopes (upper middle, without
even-count averaging), likewise the intercept over y_i − slope·x_i. -/
def theilFitB (f : JsFmt α) (xCalc yCalc : List α) :
    List α × List α × List α × Nat × String :=
  let slopes := pairwiseSlopes xCalc yCalc
  let slope := (jsSort slopes).getD (slopes.length / 2) 0
  let intercepts := (yCalc.zip xCalc).map fun p => p.1 - slope * p.2
  let intercept := (jsSort intercepts).getD (intercepts.length / 2) 0
  let coeffs := [intercept, slope]
  let yPreds := xCalc.map fun xi => intercept + slope * xi
  let residuals := (yCalc.zip yPreds).map fun p => p.1 - p.2
  let eqStr := "y = " ++ f.expStr 4 slope ++ "x " ++
    (if intercept ≥ 0 then "+" else "-") ++ " " ++ f.expStr 4 |intercept|
  (coeffs, yPreds, residuals, 2, eqStr)

/-- Least-squares branch of the standard-models path (linear and, in the
transformed space, power/exponential/logarithmic; unknown identifiers such as
piecewise_linear also land here, as in the source's final else).  The slope
division is unguarded in the source: NaN when lsqSlopeDen = 0 (see C4). -/
def lsqFitB (m : JsMath α) (f : JsFmt α) (type : CurveModel) (xCalc yCalc : List α)
    (n : Nat) : List α × List α × List α × Nat × String :=
  let sumX := xCalc.sum
  let sumY := yCalc.sum
  let slope := lsqSlopeNum xCalc yCalc / lsqSlopeDen xCalc
  let intercept := (sumY - slope * sumX) / (n : α)
  let c0 := if usesLogY type then m.exp intercept else intercept
  let coeffs := [c0, slope]
  let yPreds := xCalc.map fun xi => intercept + slope * xi
  let residuals := (yCalc.zip yPreds).map fun p => p.1 - p.2
  let eqStr :=
    match type with
    | .linear_pearson =>
      "y = " ++ f.expStr 4 slope ++ "x " ++ (if c0 ≥ 0 then "+" else "-") ++
        " " ++ f.expStr 4 |c0|
    | .power => "y = " ++ f.expStr 4 c0 ++ " · x^" ++ f.expStr 4 slope
    | .exponential => "y = " ++ f.expStr 4 c0 ++ " · e^(" ++ f.expStr 4 slope ++ "x)"
    | .logarithmic =>
      "y = " ++ f.expStr 4 c0 ++ " " ++ (if slope ≥ 0 then "+" else "-") ++
        " " ++ f.expStr 4 |slope| ++ " · ln(x)"
    | _ => cmName type
  (coeffs, yPreds, residuals, 2, eqStr)

/-- The standard-models path of the second calculateRegression (everything
except the piecewise_mixed branch).  `mandelF` computes the Mandel linearity
step; callers that pass skipMandel = true never reach it. -/
def regrStd (m : JsMath α) (f : JsFmt α)
    (mandelF : List α → List α → ValidationStepResult α)
    (x y : List α) (type : CurveModel) (isUncertaintyModel : Bool) (skipMandel : Bool) :
    RegressionResult α :=
  let stepText := "ANÁLISIS DE REGRESIÓN Y VALIDACIÓN\n"
  let validIndices := dataFilter x y type
  let xFiltered := validIndices.map fun i => x.getD i 0
  let yFiltered := validIndices.map fun i => y.getD i 0
  let n := xFiltered.length
  if n < 3 then sentinelResult
  else
    let xCalc := if usesLogX type then xFiltered.map m.log else xFiltered
    let yCalc := if usesLogY type then yFiltered.map m.log else yFiltered
    -- (coefficients, yPreds, residuals, numParams, equation string) per family
    let fit : List α × List α × List α × Nat × String :=
      match type with
      | .polynomial_2nd => polyFitB f xCalc yCalc 2
      | .polynomial_3rd => polyFitB f xCalc yCalc 3
      | .linear_theil_sen => theilFitB f xCalc yCalc
      | _ => lsqFitB m f type xCalc yCalc n
    let coeffs := fit.1
    let yPreds := fit.2.1
    let residuals := fit.2.2.1
    let numParams := fit.2.2.2.1
    let eqStr := fit.2.2.2.2
    let ssRes := residuals.foldl (fun s r => s + r * r) 0
    let meanY := yCalc.sum / (n : α)
    let ssTot := yCalc.foldl (fun s yi => s + (yi - meanY) ^ 2) 0
    let rSquared := 1 - ssRes / (if ssTot = 0 then 1 else ssTot)
    let dfRes : Int := (n : Int) - numParams
    let residualStdDev := m.sqrt (ssRes / (if dfRes > 0 then (dfRes : α) else 1))
    let ssReg := ssTot - ssRes
    let dfReg : Int := (numParams : Int) - 1
    let msReg := ssReg / (if dfReg = 0 then 1 else (dfReg : α))
    let msRes := ssRes / (if dfRes = 0 then 1 else (dfRes : α))
    let fCalc := msReg / msRes
    let fCrit : α := getFCrit dfRes dfReg
    let durbinWatson := calculateDurbinWatson residuals
    let aicT := calculateAIC m (n : α) ((numParams : α) + 1) ssRes
    let isValid := if isTheil type then true else decide (fCalc > fCrit)
    let notApplicable : ValidationStepResult α :=
      { passed := true, label := "", statisticName := "N/A", statisticValue := 0,
        criticalValue := 0, details := "No aplica (No Paramétrico)",
        isNotApplicable := some true }
    let validation : RegressionValidation α :=
      { correlation := if isTheil type then calculateSpearmanRank m f xCalc yCalc
          else calculateCorrelationSignificance m f (m.sqrt rSquared) n,
        normalityX := if isTheil type then { notApplicable with label := "Normalidad en X" }
          else calculateAndersonDarling m f xCalc,
        normalityY := if isTheil type then { notApplicable with label := "Normalidad en Y" }
          else calculateAndersonDarling m f yCalc,
        normalityResiduals := if isTheil type then
            { notApplicable with label := "Normalidad Residuos" }
          else calculateAndersonDarling m f residuals,
        modelSignificance := if isTheil type then
            { notApplicable with label := "Significancia del Modelo (F-Test)" }
          else
            { passed := decide (fCalc > fCrit), label := "Significancia del Modelo (F-Test)",
              statisticName := "F", statisticValue := f.fixNum 4 fCalc, criticalValue := fCrit,
              details := if fCalc > fCrit then "Modelo significativo" else "No significativo" },
        independence := if isTheil type then
            { notApplicable with label := "Independencia Residuos" }
          else calculateIndependenceTest m f yPreds residuals,
        mandelLinearity := if isLinear type ∧ 4 ≤ n ∧ ¬skipMandel then
            some (mandelF xFiltered yFiltered) else none }
    let quality : ModelQuality × String :=
      if isTheil type then
        if !validation.correlation.passed then
          (ModelQuality.POOR, "Correlación de rangos no significativa.")
        else
          (ModelQuality.GOOD, "Modelo robusto no paramétrico. Supuestos de normalidad no requeridos.")
      else
        if !validation.modelSignificance.passed then
          (ModelQuality.INVALID, "El modelo no es significativo (F-Test).")
        else if validation.mandelLinearity.elim false (fun v => !v.passed) then
          (ModelQuality.POOR, "Test de Mandel sugiere no linealidad.")
        else if rSquared > 999 / 1000 then (ModelQuality.EXCELLENT, "Modelo válido.")
        else (ModelQuality.GOOD, "Modelo válido.")
    let xBar := xCalc.sum / (n : α)
    let sumSqDiffX := xCalc.foldl (fun s xi => s + (xi - xBar) ^ 2) 0
    let anovaRec : AnovaResult α :=
      { sse := ssRes, ssr := ssReg, sst := ssTot, dfReg := dfReg, dfRes := dfRes,
        msReg := msReg, msRes := msRes, fStatistic := fCalc }
    { coefficients := coeffs, rSquared := rSquared, residualStdDev := residualStdDev,
      equationString := eqStr, validationSteps := stepText,
      extendedValidation := some validation, xBar := xBar, sumSqDiffX := sumSqDiffX,
      n := n, durbinWatson := durbinWatson, anova := some anovaRec,
      isParametricValid := isValid, aic := aicT.1, aicc := aicT.2.1, bic := aicT.2.2,
      modelQuality := quality.1, recommendationText := quality.2 }

/-- The source's calculateRegression specialised to skipMandel = true (all its
skipMandel = true call sites pass non-split families, so only the standard path
matters; the Mandel parameter is never consulted). -/
def regrNoMandel (m : JsMath α) (f : JsFmt α) (x y : List α) (type : CurveModel)
    (isUncertaintyModel : Bool) : RegressionResult α :=
  regrStd m f (fun _ _ => unusedVSR) x y type isUncertaintyModel true

/-- Mandel linearity test (ISO 8466-1): residual SSE of the linear fit against
the quadratic fit.  The linear sub-fit passes skipMandel = true (the source's
recursion guard); the quadratic sub-fit never consults Mandel because its family
is not linear_pearson. -/
def calculateMandelTest (m : JsMath α) (f : JsFmt α) (x y : List α) :
    ValidationStepResult α :=
  let n := x.length
  if n < 4 then
    { passed := true, label := "Test Mandel", statisticName := "F", statisticValue := 0,
      criticalValue := 0, details := "N < 4" }
  else
    let regLin := regrNoMandel m f x y .linear_pearson false
    let ssResLin := regLin.anova.elim 0 fun a => a.sse
    let regQuad := regrNoMandel m f x y .polynomial_2nd false
    let ssResQuad := regQuad.anova.elim 0 fun a => a.sse
    let dfQuad : Int := (n : Int) - 3
    let diffSS := ssResLin - ssResQuad
    let msDiff := diffSS / 1
    let msQuad := ssResQuad / (dfQuad : α)
    if msQuad < 1 / 1000000000000000 then
      { passed := false, label := "Test de Mandel", statisticName := "F",
        statisticValue := 9999, criticalValue := getFCrit dfQuad 1,
        details := "Ajuste cuadrático perfecto" }
    else
      let fCalc := msDiff / msQuad
      let fCrit : α := getFCrit dfQuad 1
      let passed := decide (fCalc ≤ fCrit)
      { passed := passed, label := "Test de Mandel (Linealidad ISO 8466)",
        statisticName := "F", statisticValue := f.fixNum 4 fCalc, criticalValue := fCrit,
        details := if passed then "Linealidad aceptada" else "No lineal" }

/-- Pure prediction switch of predictValue (a call without a subModels
descriptor).  Unhandled identifiers fall through to the identity. -/
def predictValueCore (m : JsMath α) (xInput : α) (model : CurveModel) (coeffs : List α) : α :=
  let c0 := coeffs.getD 0 0
  let c1 := coeffs.getD 1 0
  let c2 := coeffs.getD 2 0
  let c3 := coeffs.getD 3 0
  match model with
  | .linear_pearson => c0 + c1 * xInput
  | .linear_theil_sen => c0 + c1 * xInput
  | .polynomial_2nd => c0 + c1 * xInput + c2 * xInput * xInput
  | .polynomial_3rd => c0 + c1 * xInput + c2 * xInput ^ 2 + c3 * xInput ^ 3
  | .power => c0 * m.rpow xInput c1
  | .exponential => c0 * m.exp (c1 * xInput)
  | .logarithmic => c0 + c1 * m.log xInput
  | _ => xInput

/-- predictValue of the second mathUtils version: blends the two sub-models of
a piecewise_mixed fit across the overlap band, clamping outside it; the inner
predictions are recursive calls without a subModels argument, i.e. the pure
switch. -/
def predictValue (m : JsMath α) (xInput : α) (model : CurveModel) (coeffs : List α)
    (subModels : Option (SubModelsInfo α)) : α :=
  match model, subModels with
  | .piecewise_mixed, some s =>
    let splitStart := s.high.limit
    let splitEnd := s.low.limit
    if xInput ≤ splitStart then predictValueCore m xInput s.low.type s.low.coeffs
    else if xInput ≥ splitEnd then predictValueCore m xInput s.high.type s.high.coeffs
    else
      let y1 := predictValueCore m xInput s.low.type s.low.coeffs
      let y2 := predictValueCore m xInput s.high.type s.high.coeffs
      let a := (xInput - splitStart) / (splitEnd - splitStart)
      (1 - a) * y1 + a * y2
  | _, _ => predictValueCore m xInput model coeffs

/-- The main calculateRegression (second mathUtils version): domain filtering,
N < 3 sentinel, the piecewise_mixed double fit, otherwise the standard path
with the Mandel test wired in. -/
def calculateRegression (m : JsMath α) (f : JsFmt α) (x y : List α) (type : CurveModel)
    (isUncertaintyModel : Bool := false)
    (subLow : CurveModel := .linear_pearson) (subHigh : CurveModel := .linear_pearson)
    (skipMandel : Bool := false) : RegressionResult α :=
  match type with
  | .piecewise_mixed =>
    -- filtering is the identity for this family but is kept for faithfulness
    let validIndices := dataFilter x y .piecewise_mixed
    let xFiltered := validIndices.map fun i => x.getD i 0
    let yFiltered := validIndices.map fun i => y.getD i 0
    let n := xFiltered.length
    if n < 3 then sentinelResult
    else if n ≤ 4 then
      -- fallback: a plain linear fit of the original inputs (skipMandel default false)
      regrStd m f (calculateMandelTest m f) x y .linear_pearson isUncertaintyModel false
    else
      let mid := n / 2
      let endIdx1a := mid + 1
      let startIdx2a := mid - 1
      -- the source's `if (startIdx2 < 0) startIdx2 = 0` is vacuous here (mid ≥ 2)
      let endIdx1b := if endIdx1a ≥ n then n - 1 else endIdx1a
      let endIdx1 := if endIdx1b < 2 then 2 else endIdx1b
      let startIdx2 := if startIdx2a > n - 3 then n - 3 else startIdx2a
      let x1 := xFiltered.take (endIdx1 + 1)
      let y1 := yFiltered.take (endIdx1 + 1)
      let x2 := xFiltered.drop startIdx2
      let y2 := yFiltered.drop startIdx2
      let type1 := if subLow = .piecewise_mixed then .linear_pearson else subLow
      let type2 := if subHigh = .piecewise_mixed then .linear_pearson else subHigh
      let r1 := regrStd m f (calculateMandelTest m f) x1 y1 type1 isUncertaintyModel true
      let r2 := regrStd m f (calculateMandelTest m f) x2 y2 type2 isUncertaintyModel true
      let splitStart := xFiltered.getD startIdx2 0
      let splitEnd := xFiltered.getD endIdx1 0
      let globalMean := yFiltered.sum / (n : α)
      let acc := (yFiltered.zip xFiltered).foldl
        (fun (st : α × α) p =>
          let yi := p.1
          let xi := p.2
          let yPred :=
            if xi ≤ splitStart then predictValueCore m xi type1 r1.coefficients
            else if xi ≥ splitEnd then predictValueCore m xi type2 r2.coefficients
            else
              let y1p := predictValueCore m xi type1 r1.coefficients
              let y2p := predictValueCore m xi type2 r2.coefficients
              let a := (xi - splitStart) / (splitEnd - splitStart)
              (1 - a) * y1p + a * y2p
          (st.1 + (yi - yPred) ^ 2, st.2 + (yi - globalMean) ^ 2))
        (0, 0)
      let ssRes := acc.1
      let ssTot := acc.2
      let rSquared := 1 - ssRes / (if ssTot = 0 then 1 else ssTot)
      let kSplit := r1.coefficients.length + r2.coefficients.length + 1
      let aicT := calculateAIC m (n : α) (kSplit : α) ssRes
      { coefficients := [], rSquared := rSquared,
        residualStdDev := m.sqrt (ssRes / ((n : α) - 4)),
        equationString := "Split: [" ++ cmName type1 ++ "] / [" ++ cmName type2 ++ "]",
        validationSteps := "ANÁLISIS DE REGRESIÓN Y VALIDACIÓN\nMÉTODO: REGRESIÓN DOBLE FLEXIBLE (SPLIT)\n",
        xBar := 0, sumSqDiffX := 0, n := n, durbinWatson := 2,
        aic := aicT.1, aicc := aicT.2.1, bic := aicT.2.2,
        modelQuality := if rSquared > 99 / 100 then ModelQuality.EXCELLENT else ModelQuality.GOOD,
        recommendationText := "Modelo optimizado flexible (Mixed Split).",
        isParametricValid := true,
        subModels := some { low := { type := type1, coeffs := r1.coefficients, limit := splitEnd },
                            high := { type := type2, coeffs := r2.coefficients, limit := splitStart } } }
  | _ => regrStd m f (calculateMandelTest m f) x y type isUncertaintyModel skipMandel

/-- Interpolation (prediction-interval) uncertainty at a query point.  The
piecewise_mixed family with a subModels descriptor short-circuits to the plain
residual standard deviation; power/logarithmic log-transform the query point
(returning 2·s_res for non-positive x) and Sxx = 0 short-circuits to s_res. -/
def calculateInterpolationUncertainty (m : JsMath α) (xInput : α)
    (reg : RegressionResult α) (model : CurveModel) : α :=
  if reg.n < 3 then 0
  else
    match model, reg.subModels with
    | .piecewise_mixed, some _ => reg.residualStdDev
    | _, _ =>
      if usesLogX model ∧ xInput ≤ 0 then reg.residualStdDev * 2
      else
        let xTrans := if usesLogX model then m.log xInput else xInput
        let df := reg.anova.elim ((reg.n : Int) - 2) fun a => a.dfRes
        let t : α := getTStudentCrit df
        if reg.sumSqDiffX = 0 then reg.residualStdDev
        else
          let term := 1 + 1 / (reg.n : α) + (xTrans - reg.xBar) ^ 2 / reg.sumSqDiffX
          let u := t * reg.residualStdDev * m.sqrt term
          if usesLogY model then
            |predictValue m xInput model reg.coefficients none * u|
          else u

/-- A reference standard's own calibration record (numeric fields; the id and
distribution strings of types.ts play no role in the engine). -/
structure StandardCalibrationPoint (α : Type*) where
  nominal : α
  indication : α
  referenceValue : α
  uncertainty : α
  coverageFactor : α
  confidenceLevel : α
deriving DecidableEq

/-- Output pair of fitStandardModels. -/
structure FitOutput (α : Type*) where
  valueReg : RegressionResult α
  uncReg : RegressionResult α

/-- The minimum AICc of the candidate reference families (linear and quadratic)
accumulated by fitStandardModels; `none` is the untouched JS Infinity (no
parametrically valid, non-INVALID candidate). -/
def candidateMinAICc (m : JsMath α) (f : JsFmt α) (x y : List α) : Option α :=
  [CurveModel.linear_pearson, CurveModel.polynomial_2nd].foldl
    (fun acc mdl =>
      let reg := calculateRegression m f x y mdl false .linear_pearson .linear_pearson false
      if reg.isParametricValid ∧ reg.modelQuality ≠ ModelQuality.INVALID then
        match acc with
        | none => some reg.aicc
        | some v => if reg.aicc < v then some reg.aicc else acc
      else acc)
    none

/-- fitStandardModels of the second mathUtils version: fits the chosen value
model, compares its AICc against the candidate minimum (flagging isBestFit and,
only when the regression's recommendation is empty, writing the comparison
text), and fits the uncertainty model on (referenceValue, uncertainty/k). -/
def fitStandardModels (m : JsMath α) (f : JsFmt α)
    (points : List (StandardCalibrationPoint α)) (valModel uncModel : CurveModel)
    (valSub : CurveModel × CurveModel := (.linear_pearson, .linear_pearson))
    (uncSub : CurveModel × CurveModel := (.linear_pearson, .linear_pearson)) :
    FitOutput α :=
  let xVal := points.map fun p => p.indication
  let yVal := points.map fun p => p.referenceValue
  let minAICc := candidateMinAICc m f xVal yVal
  let valueReg0 := calculateRegression m f xVal yVal valModel false valSub.1 valSub.2 false
  let valueReg :=
    if valueReg0.isParametricValid ∧ valModel ≠ CurveModel.piecewise_mixed ∧
        valModel ≠ CurveModel.linear_theil_sen then
      -- JS: valDeltaAIC = aicc - minAICc; with minAICc = Infinity the delta is
      -- -Infinity, so the `≤ 4` test holds vacuously
      let within : Bool := match minAICc with
        | none => true
        | some v => decide (valueReg0.aicc - v ≤ 4)
      if within ∧ valueReg0.rSquared > 95 / 100 then
        { valueReg0 with
          isBestFit := some true,
          recommendationText := if valueReg0.recommendationText = "" then
            "MODELO ESTADÍSTICAMENTE ROBUSTO." else valueReg0.recommendationText }
      else
        let deltaStr := match minAICc with
          | none => "-Infinity"
          | some v => f.fixStr 2 (valueReg0.aicc - v)
        { valueReg0 with
          isBestFit := some false,
          recommendationText := if valueReg0.recommendationText = "" then
            "Existen modelos con mejor ajuste (ΔAICc = " ++ deltaStr ++ ")."
          else valueReg0.recommendationText }
    else valueReg0
  let xUnc := points.map fun p => p.referenceValue
  let yUnc := points.map fun p =>
    p.uncertainty / (if p.coverageFactor = 0 then 2 else p.coverageFactor)
  let uncReg := calculateRegression m f xUnc yUnc uncModel true uncSub.1 uncSub.2 false
  { valueReg := valueReg, uncReg := uncReg }

/-- One instrument test point (calibrationLogic CalibrationPoint). -/
structure CalibrationPoint (α : Type*) where
  nominal : α
  standardReading : α
  run1Up : Option α := none
  run1Down : Option α := none
  run2Up : Option α := none
  run2Down : Option α := none

/-- Instrument under calibration (numeric fields used by the engine). -/
structure Instrument (α : Type*) where
  rangeMin : α
  rangeMax : α
  resolution : α
  accuracyClass : α

/-- Reference standard (fields used by calculateResults). -/
structure ReferenceStandard (α : Type*) where
  rangeMin : α
  rangeMax : α
  resolution : α
  valueModelType : CurveModel
  valueRegression : Option (RegressionResult α) := none
  uncertaintyModelType : CurveModel
  uncertaintyRegression : Option (RegressionResult α) := none
  calibrationPoints : List (StandardCalibrationPoint α)

/-- Calibration sequence selector (unused by the numerics). -/
inductive SequenceType
  | A
  | B
  | C

/-- Uncertainty contributor breakdown of a CalibrationResult. -/
structure UncertaintyContributors (α : Type*) where
  ref : α
  model : α
  res : α
  rep : α
  hys : α
deriving DecidableEq

/-- Per-point output of calculateResults. -/
structure CalibrationResult (α : Type*) where
  nominal : α
  trueValue : α
  meanError : α
  hysteresis : α
  repeatability : α
  expandedUncertainty : α
  uncertaintyContributors : UncertaintyContributors α
  compliance : Bool
deriving DecidableEq

/-- calculateResults (calibrationLogic.ts): head correction, prediction of the
true value, and propagation of the expanded uncertainty per test point.  When a
regression is missing on the standard the source fits and caches both; the
cache write is a frame effect of the caller, embedded functionally here. -/
def calculateResults (m : JsMath α) (f : JsFmt α) (points : List (CalibrationPoint α))
    (instrument : Instrument α) (standard : ReferenceStandard α) (sequence : SequenceType)
    (fluidDensity heightDiff localGravity : α) : List (CalibrationResult α) :=
  let headCorrPa := fluidDensity * localGravity * (heightDiff / 100)
  let headCorrBar := headCorrPa / 100000
  let regs : RegressionResult α × RegressionResult α :=
    match standard.valueRegression, standard.uncertaintyRegression with
    | some vr, some ur => (vr, ur)
    | _, _ =>
      let fitted := fitStandardModels m f standard.calibrationPoints
        standard.valueModelType standard.uncertaintyModelType
      (fitted.valueReg, fitted.uncReg)
  let vr := regs.1
  let ur := regs.2
  points.map fun p =>
    let correctedReading := p.standardReading + headCorrBar
    let trueValue := predictValue m correctedReading standard.valueModelType vr.coefficients none
    let uModel := calculateInterpolationUncertainty m correctedReading vr standard.valueModelType
    let r1Up := p.run1Up.getD 0
    let r1Down := p.run1Down.getD 0
    let readings := [r1Up, r1Down]
    let meanReading := readings.sum / (readings.length : α)
    let meanError := meanReading - trueValue
    let uRefStd := predictValue m trueValue standard.uncertaintyModelType ur.coefficients none
    let uRef := m.sqrt (uRefStd ^ 2 + uModel ^ 2)
    let uC := m.sqrt (uRef ^ 2 + (instrument.resolution / m.sqrt 12) ^ 2)
    let k : α := 2
    { nominal := p.nominal, trueValue := trueValue, meanError := meanError,
      hysteresis := |r1Up - r1Down|, repeatability := 0,
      expandedUncertainty := uC * k,
      uncertaintyContributors :=
        { ref := uRef * k, model := uModel * k, res := 0, rep := 0, hys := 0 },
      compliance := decide (|meanError| + uC * k <
        instrument.rangeMax * instrument.accuracyClass / 100) }

/-- Modelled from the spec and claim wording (C5): the standard order-statistic
median of a list, averaging the two middle elements of the sorted list for even
counts. -/
def medianSpec (l : List α) : α :=
  let s := jsSort l
  if l.length % 2 = 1 then s.getD (l.length / 2) 0
  else (s.getD (l.length / 2 - 1) 0 + s.getD (l.length / 2) 0) / 2

/-- The upper-middle order statistic (element at index ⌊len/2⌋ of the sorted
list), which is what the source's Theil-Sen branch actually computes. -/
def upperMid (l : List α) : α := (jsSort l).getD (l.length / 2) 0

/-- Modelled from the spec sentence of C2, verbatim: u(x) = t_crit(df) · s_res ·
sqrt(1 + 1/n + (x − x̄)²/Sxx) with the raw query point x (no log transform),
df from the ANOVA record or n − 2 without one, and the power/exponential result
multiplied by the magnitude of the predicted value at x. -/
def specInterpolationUncertainty (m : JsMath α) (xInput : α)
    (reg : RegressionResult α) (model : CurveModel) : α :=
  let df := reg.anova.elim ((reg.n : Int) - 2) fun a => a.dfRes
  let u := getTStudentCrit df * reg.residualStdDev *
    m.sqrt (1 + 1 / (reg.n : α) + (xInput - reg.xBar) ^ 2 / reg.sumSqDiffX)
  if usesLogY model then
    |predictValue m xInput model reg.coefficients none| * u
  else u

/-- Stub transcendental primitives: a closed JsMath value used to instantiate
witness statements of theorems that are universally quantified over the
primitives (their code paths provably never consult them). -/
def stubMath : JsMath α :=
  { log := id, exp := id, sqrt := id, rpow := fun a _ => a }

/-- Stub formatting primitives (only display strings depend on them). -/
def stubFmt : JsFmt α :=
  { fixNum := fun _ x => x, fixStr := fun _ _ => "", expStr := fun _ _ => "" }

/-- Concrete subModels descriptor used by the C7 witness: linear segments with
overlap band [0, 1]. -/
def subInfoW : SubModelsInfo ℝ :=
  { low := { type := .linear_pearson, coeffs := [0, 1], limit := 1 },
    high := { type := .linear_pearson, coeffs := [0, 1], limit := 0 } }

/-- Concrete piecewise_mixed regression record used by the C7 witness. -/
def regW : RegressionResult ℝ :=
  { coefficients := [], rSquared := 1, residualStdDev := 1, equationString := "",
    validationSteps := "", xBar := 0, sumSqDiffX := 0, n := 5, durbinWatson := 2,
    isParametricValid := true, aic := 0, aicc := 0, bic := 0,
    modelQuality := ModelQuality.GOOD, recommendationText := "",
    subModels := some subInfoW }

/-- Concrete power-family regression record used by the C2 analysis: three
points, unit residual deviation, log-space mean 1 and Sxx 1, ANOVA df 1. -/
def regPowCx : RegressionResult ℝ :=
  { coefficients := [1, 0], rSquared := 0, residualStdDev := 1, equationString := "",
    validationSteps := "", xBar := 1, sumSqDiffX := 1, n := 3, durbinWatson := 0,
    anova := some { sse := 0, ssr := 0, sst := 0, dfReg := 1, dfRes := 1, msReg := 0,
                    msRes := 0, fStatistic := 0 },
    isParametricValid := true, aic := 0, aicc := 0, bic := 0,
    modelQuality := ModelQuality.GOOD, recommendationText := "" }

/-- Concrete Theil-Sen-style regression record used by the C2 witness (no ANOVA
record, so the degrees of freedom default to n − 2). -/
def regTsW : RegressionResult ℝ :=
  { coefficients := [0, 1], rSquared := 0, residualStdDev := 1, equationString := "",
    validationSteps := "", xBar := 0, sumSqDiffX := 1, n := 3, durbinWatson := 0,
    anova := none, isParametricValid := true, aic := 0, aicc := 0, bic := 0,
    modelQuality := ModelQuality.GOOD, recommendationText := "" }

/-- Within-4 AICc comparison against the optional candidate minimum (`none` is
the untouched JS Infinity, against which every delta is −∞ ≤ 4). -/
def aiccWithin4 (vr : RegressionResult α) (mo : Option α) : Prop :=
  ∀ v, mo = some v → vr.aicc - v ≤ 4

/-- Default test point (used only as the List.getD fallback). -/
def defaultCalibPoint : CalibrationPoint α :=
  { nominal := 0, standardReading := 0 }

/-- Default calibration result (used only as the List.getD fallback). -/
def defaultCalibResult : CalibrationResult α :=
  { nominal := 0, trueValue := 0, meanError := 0, hysteresis := 0, repeatability := 0,
    expandedUncertainty := 0,
    uncertaintyContributors := { ref := 0, model := 0, res := 0, rep := 0, hys := 0 },
    compliance := false }

/-- Concrete reference standard used by the C1 witness (both regression caches
populated, so calculateResults takes the cached branch). -/
def standW : ReferenceStandard ℝ :=
  { rangeMin := 0, rangeMax := 1, resolution := 0,
    valueModelType := .linear_theil_sen, valueRegression := some regTsW,
    uncertaintyModelType := .linear_theil_sen, uncertaintyRegression := some regTsW,
    calibrationPoints := [] }

/-- Concrete instrument record used by the C1 witness. -/
def instrW : Instrument ℝ :=
  { rangeMin := 0, rangeMax := 1, resolution := 0, accuracyClass := 1 }

/-! ## Helper lemmas -/

lemma map_getD_range (l : List α) (n : Nat) (h : n = l.length) :
    (List.range n).map (fun i => l.getD i 0) = l := by
  subst h
  apply List.ext_getElem
  · simp
  · intro i h1 h2
    simp [List.getD_eq_getElem?_getD, List.getElem?_eq_getElem, h2]

/-- The Student-t lookup table is nonnegative. -/
lemma getTStudentCrit_nonneg (df : Int) : (0 : α) ≤ getTStudentCrit df := by
  unfold getTStudentCrit
  split_ifs <;> norm_num

/-- The sentinel is produced by every family when fewer than 3 index pairs
survive domain filtering. -/
lemma calculateRegression_sentinel (m : JsMath α) (f : JsFmt α) (x y : List α)
    (type : CurveModel) (isUnc : Bool) (sL sH : CurveModel) (skip : Bool)
    (h : (dataFilter x y type).length < 3) :
    calculateRegression m f x y type isUnc sL sH skip = sentinelResult := by
  cases type <;>
    simp only [calculateRegression, regrStd, List.length_map] <;>
    rw [if_pos h]

/-- Coefficients of the Theil-Sen branch: the packed [intercept, slope] built
from the ⌊len/2⌋ order statistics of the sorted pairwise slopes and of the
sorted y − slope·x values. -/
lemma regrStd_theil_coefficients (m : JsMath α) (f : JsFmt α)
    (mandelF : List α → List α → ValidationStepResult α)
    (x y : List α) (isUnc skip : Bool) (hxy : x.length = y.length)
    (h3 : ¬ x.length < 3) :
    (regrStd m f mandelF x y .linear_theil_sen isUnc skip).coefficients =
      [upperMid ((y.zip x).map fun p => p.1 - upperMid (pairwiseSlopes x y) * p.2),
       upperMid (pairwiseSlopes x y)] := by
  simp only [regrStd, dataFilter, map_getD_range x x.length rfl,
    map_getD_range y x.length hxy, List.length_range, usesLogX, usesLogY, theilFitB]
  rw [if_neg (by simpa using h3)]
  simp [upperMid, jsSort]

/-- Concrete exponential-family fit shared by the C6 analysis: x = [0,1,2,3],
y = e^[1, 2.9, 3.1, 5].  The log-space linear fit has R² = 3721/4010 ≈ 0.928
(not above 0.95), passes the F-test (F = 7442/289 ≈ 25.75 > F_crit = 18.51,
hence parametrically valid), and carries the regression's own recommendation
"Modelo válido.". -/
lemma expFitFacts :
    (calculateRegression (JsMath.mk Real.log Real.exp Real.sqrt fun a b => a ^ b) stubFmt
        [0, 1, 2, 3] [Real.exp 1, Real.exp (29/10), Real.exp (31/10), Real.exp 5]
        .exponential).isParametricValid = true ∧
    (calculateRegression (JsMath.mk Real.log Real.exp Real.sqrt fun a b => a ^ b) stubFmt
        [0, 1, 2, 3] [Real.exp 1, Real.exp (29/10), Real.exp (31/10), Real.exp 5]
        .exponential).rSquared = 3721 / 4010 ∧
    (calculateRegression (JsMath.mk Real.log Real.exp Real.sqrt fun a b => a ^ b) stubFmt
        [0, 1, 2, 3] [Real.exp 1, Real.exp (29/10), Real.exp (31/10), Real.exp 5]
        .exponential).recommendationText = "Modelo válido." := by
  have h1 : ¬ ((Real.exp 1) ≤ 0) := (Real.exp_pos _).not_le
  have h2 : ¬ ((Real.exp (29/10)) ≤ 0) := (Real.exp_pos _).not_le
  have h3 : ¬ ((Real.exp (31/10)) ≤ 0) := (Real.exp_pos _).not_le
  have h4 : ¬ ((Real.exp 5) ≤ 0) := (Real.exp_pos _).not_le
  have hdf : dataFilter [(0:ℝ), 1, 2, 3]
      [Real.exp 1, Real.exp (29/10), Real.exp (31/10), Real.exp 5] .exponential
      = [0, 1, 2, 3] := by
    simp [dataFilter, List.range_succ, h1, h2, h3, h4]
  refine ⟨?_, ?_, ?_⟩
  · simp only [calculateRegression, regrStd, hdf, usesLogX, usesLogY, lsqFitB, isTheil,
      isLinear]
    norm_num [List.getD, lsqSlopeNum, lsqSlopeDen, Real.log_exp, List.range_succ, getFCrit]
  · simp only [calculateRegression, regrStd, hdf, usesLogX, usesLogY, lsqFitB, isTheil,
      isLinear]
    norm_num [List.getD, lsqSlopeNum, lsqSlopeDen, Real.log_exp, List.range_succ]
  · simp only [calculateRegression, regrStd, hdf, usesLogX, usesLogY, lsqFitB, isTheil,
      isLinear]
    norm_num [List.getD, lsqSlopeNum, lsqSlopeDen, Real.log_exp, List.range_succ, getFCrit]

/-! ## Claim theorems -/

/-- C9: predictValue degrades to the identity on every model identifier that is
not explicitly handled: the piecewise_linear family (with or without a
subModels descriptor) and the piecewise_mixed family without a subModels
descriptor both return the input unchanged. -/
theorem C9_default_identity {α : Type*} [LinearOrderedField α] (m : JsMath α)
    (x : α) (coeffs : List α) (sub : Option (SubModelsInfo α)) :
    predictValue m x .piecewise_linear coeffs sub = x ∧
    predictValue m x .piecewise_mixed coeffs none = x := by
  constructor
  · cases sub <;> rfl
  · rfl

/-- C3: when fewer than 3 index pairs survive domain filtering,
calculateRegression returns (never throws) the sentinel with modelQuality
INVALID, isParametricValid false, n = 0 and zero rSquared and residual
standard deviation. -/
theorem C3_insufficient_data_sentinel {α : Type*} [LinearOrderedField α]
    (m : JsMath α) (f : JsFmt α) (x y : List α) (type : CurveModel) (isUnc : Bool)
    (sL sH : CurveModel) (skip : Bool)
    (h : (dataFilter x y type).length < 3) :
    (calculateRegression m f x y type isUnc sL sH skip).modelQuality = ModelQuality.INVALID ∧
    (calculateRegression m f x y type isUnc sL sH skip).isParametricValid = false ∧
    (calculateRegression m f x y type isUnc sL sH skip).n = 0 ∧
    (calculateRegression m f x y type isUnc sL sH skip).rSquared = 0 ∧
    (calculateRegression m f x y type isUnc sL sH skip).residualStdDev = 0 := by
  rw [calculateRegression_sentinel m f x y type isUnc sL sH skip h]
  exact ⟨rfl, rfl, rfl, rfl, rfl⟩

/-- C3 witness: fitting two points with the linear family hits the sentinel. -/
theorem C3_witness :
    ((dataFilter ([1, 2] : List ℝ) [1, 2] .linear_pearson).length < 3) ∧
    (calculateRegression (stubMath (α := ℝ)) stubFmt [1, 2] [1, 2] .linear_pearson
        false .linear_pearson .linear_pearson false).modelQuality = ModelQuality.INVALID ∧
    (calculateRegression (stubMath (α := ℝ)) stubFmt [1, 2] [1, 2] .linear_pearson
        false .linear_pearson .linear_pearson false).isParametricValid = false ∧
    (calculateRegression (stubMath (α := ℝ)) stubFmt [1, 2] [1, 2] .linear_pearson
        false .linear_pearson .linear_pearson false).n = 0 ∧
    (calculateRegression (stubMath (α := ℝ)) stubFmt [1, 2] [1, 2] .linear_pearson
        false .linear_pearson .linear_pearson false).rSquared = 0 ∧
    (calculateRegression (stubMath (α := ℝ)) stubFmt [1, 2] [1, 2] .linear_pearson
        false .linear_pearson .linear_pearson false).residualStdDev = 0 := by
  have h : (dataFilter ([1, 2] : List ℝ) [1, 2] .linear_pearson).length < 3 := by
    simp [dataFilter]
  exact ⟨h, C3_insufficient_data_sentinel _ _ _ _ _ _ _ _ _ h⟩

/-- C4 (code bug): with zero variance in x (every x equal) and n ≥ 3, the
least-squares branch is reached (the result's `n` is 3, not the sentinel) and
the slope is computed as lsqSlopeNum/lsqSlopeDen with both numerator and
denominator exactly 0.  In JS this is 0/0 = NaN, which then propagates through
intercept, coefficients, residuals, rSquared and residualStdDev — there is no
guard, contradicting the spec's degenerate-input policy (the embedding's field
division totalises 0/0 as 0, so the NaN is exhibited by this exact 0/0). -/
theorem C4_zero_variance_nan_division :
    (calculateRegression (JsMath.mk Real.log Real.exp Real.sqrt fun a b => a ^ b)
        stubFmt [2, 2, 2] [1, 2, 3] .linear_pearson).n = 3 ∧
    lsqSlopeDen ([2, 2, 2] : List ℝ) = 0 ∧
    lsqSlopeNum ([2, 2, 2] : List ℝ) [1, 2, 3] = 0 := by
  refine ⟨?_, by norm_num [lsqSlopeDen], by norm_num [lsqSlopeNum]⟩
  simp only [calculateRegression, regrStd, dataFilter, map_getD_range, List.length_range]
  norm_num [lsqFitB, usesLogX, usesLogY]

/-- C8 counterexample: AICc is not monotone in k for fixed n and SSE once k
exceeds n − 1 — at n = 5, SSE = 1 the parameter counts 3 < 5 give
AICc(5,3,1) = 5·ln(1/5) + 30 > 5·ln(1/5) − 50 = AICc(5,5,1). -/
theorem C8_counterexample :
    ¬ ((calculateAIC (JsMath.mk Real.log Real.exp Real.sqrt fun a b => a ^ b)
          5 3 1).2.1
        ≤ (calculateAIC (JsMath.mk Real.log Real.exp Real.sqrt fun a b => a ^ b)
          5 5 1).2.1) := by
  simp only [calculateAIC]
  intro h
  norm_num at h
  linarith

/-- C8 amended: for fixed n and SSE the AICc of calculateAIC is monotone
nondecreasing in the parameter count k on the range 0 ≤ k₁ ≤ k₂ ≤ n − 2, where
the small-sample correction denominators n − k − 1 stay positive; beyond
k = n − 1 the denominator flips sign and the monotonicity fails
(C8_counterexample). -/
theorem C8_aicc_monotone_amended (m : JsMath ℝ) (n k1 k2 sse : ℝ)
    (h0 : 0 ≤ k1) (h12 : k1 ≤ k2) (h2 : k2 ≤ n - 2) :
    (calculateAIC m n k1 sse).2.1 ≤ (calculateAIC m n k2 sse).2.1 := by
  simp only [calculateAIC]
  have hd2 : (0 : ℝ) < n - k2 - 1 := by linarith
  have hd1 : (0 : ℝ) < n - k1 - 1 := by linarith
  have ha2 : (0 : ℝ) ≤ 2 * k2 * (k2 + 1) := by nlinarith
  have h12' : 2 * k1 * (k1 + 1) ≤ 2 * k2 * (k2 + 1) := by nlinarith
  have key : 2 * k1 * (k1 + 1) / (n - k1 - 1) ≤ 2 * k2 * (k2 + 1) / (n - k2 - 1) := by
    rw [div_le_div_iff hd1 hd2]
    calc 2 * k1 * (k1 + 1) * (n - k2 - 1)
        ≤ 2 * k2 * (k2 + 1) * (n - k2 - 1) := by nlinarith
      _ ≤ 2 * k2 * (k2 + 1) * (n - k1 - 1) := by nlinarith
  linarith [key]

/-- C8 witness: a concrete in-range instance (n = 6, k₁ = 3 ≤ k₂ = 4 = n − 2). -/
theorem C8_witness :
    ((0 : ℝ) ≤ 3) ∧ ((3 : ℝ) ≤ 4) ∧ ((4 : ℝ) ≤ 6 - 2) ∧
    ((calculateAIC (JsMath.mk Real.log Real.exp Real.sqrt fun a b => a ^ b)
        6 3 1).2.1
      ≤ (calculateAIC (JsMath.mk Real.log Real.exp Real.sqrt fun a b => a ^ b)
        6 4 1).2.1) :=
  ⟨by norm_num, by norm_num, by norm_num,
    C8_aicc_monotone_amended _ 6 3 4 1 (by norm_num) (by norm_num) (by norm_num)⟩

/-- C7: for a piecewise_mixed fit with subModels descriptor and a proper
overlap band (band_start = high.limit < low.limit = band_end), the predicted
value is continuous at both band edges — at band_start the function value and
the blend at α = 0 both equal the low segment's pure prediction, at band_end
the function value and the blend at α = 1 both equal the high segment's pure
prediction — and the interpolation uncertainty is constant in x (hence its
value at each edge equals its value just outside the band). -/
theorem C7_band_continuity {α : Type*} [LinearOrderedField α] (m : JsMath α)
    (s : SubModelsInfo α) (coeffs : List α) (reg : RegressionResult α)
    (hband : s.high.limit < s.low.limit) (hreg : reg.subModels = some s) :
    predictValue m s.high.limit .piecewise_mixed coeffs (some s)
        = predictValueCore m s.high.limit s.low.type s.low.coeffs ∧
    predictValue m s.low.limit .piecewise_mixed coeffs (some s)
        = predictValueCore m s.low.limit s.high.type s.high.coeffs ∧
    ((1 - (s.high.limit - s.high.limit) / (s.low.limit - s.high.limit)) *
          predictValueCore m s.high.limit s.low.type s.low.coeffs
        + ((s.high.limit - s.high.limit) / (s.low.limit - s.high.limit)) *
          predictValueCore m s.high.limit s.high.type s.high.coeffs)
      = predictValueCore m s.high.limit s.low.type s.low.coeffs ∧
    ((1 - (s.low.limit - s.high.limit) / (s.low.limit - s.high.limit)) *
          predictValueCore m s.low.limit s.low.type s.low.coeffs
        + ((s.low.limit - s.high.limit) / (s.low.limit - s.high.limit)) *
          predictValueCore m s.low.limit s.high.type s.high.coeffs)
      = predictValueCore m s.low.limit s.high.type s.high.coeffs ∧
    ∀ x1 x2 : α, calculateInterpolationUncertainty m x1 reg .piecewise_mixed
        = calculateInterpolationUncertainty m x2 reg .piecewise_mixed := by
  have hne : s.low.limit - s.high.limit ≠ 0 := sub_ne_zero.mpr (ne_of_gt hband)
  refine ⟨?_, ?_, ?_, ?_, ?_⟩
  · simp only [predictValue]
    rw [if_pos le_rfl]
  · simp only [predictValue]
    rw [if_neg (not_le.mpr hband), if_pos le_rfl]
  · rw [sub_self, zero_div]
    ring
  · rw [div_self hne]
    ring
  · intro x1 x2
    simp [calculateInterpolationUncertainty, hreg]

/-- C7 witness: concrete linear/linear split with overlap band [0, 1]. -/
theorem C7_witness :
    (subInfoW.high.limit < subInfoW.low.limit) ∧ (regW.subModels = some subInfoW) ∧
    (predictValue (stubMath (α := ℝ)) subInfoW.high.limit .piecewise_mixed []
        (some subInfoW)
      = predictValueCore stubMath subInfoW.high.limit subInfoW.low.type subInfoW.low.coeffs ∧
    predictValue stubMath subInfoW.low.limit .piecewise_mixed [] (some subInfoW)
      = predictValueCore stubMath subInfoW.low.limit subInfoW.high.type subInfoW.high.coeffs ∧
    ((1 - (subInfoW.high.limit - subInfoW.high.limit) /
            (subInfoW.low.limit - subInfoW.high.limit)) *
          predictValueCore stubMath subInfoW.high.limit subInfoW.low.type subInfoW.low.coeffs
        + ((subInfoW.high.limit - subInfoW.high.limit) /
            (subInfoW.low.limit - subInfoW.high.limit)) *
          predictValueCore stubMath subInfoW.high.limit subInfoW.high.type subInfoW.high.coeffs)
      = predictValueCore stubMath subInfoW.high.limit subInfoW.low.type subInfoW.low.coeffs ∧
    ((1 - (subInfoW.low.limit - subInfoW.high.limit) /
            (subInfoW.low.limit - subInfoW.high.limit)) *
          predictValueCore stubMath subInfoW.low.limit subInfoW.low.type subInfoW.low.coeffs
        + ((subInfoW.low.limit - subInfoW.high.limit) /
            (subInfoW.low.limit - subInfoW.high.limit)) *
          predictValueCore stubMath subInfoW.low.limit subInfoW.high.type subInfoW.high.coeffs)
      = predictValueCore stubMath subInfoW.low.limit subInfoW.high.type subInfoW.high.coeffs ∧
    ∀ x1 x2 : ℝ, calculateInterpolationUncertainty stubMath x1 regW .piecewise_mixed
        = calculateInterpolationUncertainty stubMath x2 regW .piecewise_mixed) :=
  ⟨by norm_num [subInfoW], rfl,
    C7_band_continuity stubMath subInfoW [] regW (by norm_num [subInfoW]) rfl⟩

/-- C5 counterexample: on x = [0,1,2,3], y = [0,1,2,10] the six pairwise slopes
sort to [1, 1, 1, 10/3, 9/2, 8]; the source takes the element at index 3
(slope 10/3) while the standard even-count median averages the two middle
elements to 13/6, so the fitted slope coefficient is not the median the claim
describes. -/
theorem C5_median_counterexample :
    (calculateRegression (JsMath.mk Real.log Real.exp Real.sqrt fun a b => a ^ b) stubFmt
        ([0, 1, 2, 3] : List ℝ) [0, 1, 2, 10] .linear_theil_sen).coefficients.getD 1 0
      ≠ medianSpec (pairwiseSlopes ([0, 1, 2, 3] : List ℝ) [0, 1, 2, 10]) := by
  have hcalc : calculateRegression (JsMath.mk Real.log Real.exp Real.sqrt fun a b => a ^ b)
      stubFmt ([0, 1, 2, 3] : List ℝ) [0, 1, 2, 10] .linear_theil_sen
      = regrStd (JsMath.mk Real.log Real.exp Real.sqrt fun a b => a ^ b) stubFmt
        (calculateMandelTest (JsMath.mk Real.log Real.exp Real.sqrt fun a b => a ^ b) stubFmt)
        ([0, 1, 2, 3] : List ℝ) [0, 1, 2, 10] .linear_theil_sen false false := rfl
  rw [hcalc, regrStd_theil_coefficients _ _ _ _ _ _ _ (by norm_num) (by norm_num)]
  norm_num [upperMid, medianSpec, jsSort, pairwiseSlopes, List.insertionSort,
    List.orderedInsert, List.range_succ, List.getD, List.flatMap, List.filterMap]

/-- C5 amended: for n ≥ 3 equal-length inputs, the Theil-Sen fit's coefficients
are [intercept, slope] where the slope is the element at index ⌊m/2⌋ of the
ascending-sorted pairwise slopes (the upper middle order statistic, with no
even-count averaging) and the intercept is the element at index ⌊n/2⌋ of the
sorted y_i − slope·x_i values; for odd counts this order statistic coincides
with the standard median. -/
theorem C5_order_statistic_amended {α : Type*} [LinearOrderedField α]
    (m : JsMath α) (f : JsFmt α) (x y : List α) (isUnc : Bool) (sL sH : CurveModel)
    (skip : Bool) (hxy : x.length = y.length) (h3 : ¬ x.length < 3) :
    (calculateRegression m f x y .linear_theil_sen isUnc sL sH skip).coefficients =
      [upperMid ((y.zip x).map fun p => p.1 - upperMid (pairwiseSlopes x y) * p.2),
       upperMid (pairwiseSlopes x y)] ∧
    ∀ l : List α, l.length % 2 = 1 → upperMid l = medianSpec l := by
  constructor
  · exact regrStd_theil_coefficients m f (calculateMandelTest m f) x y isUnc skip hxy h3
  · intro l hl
    simp [medianSpec, upperMid, hl]

/-- C5 witness: the amended coefficient description holds at x = [0,1,2,3],
y = [0,1,2,10]. -/
theorem C5_witness :
    (([0, 1, 2, 3] : List ℝ).length = ([0, 1, 2, 10] : List ℝ).length) ∧
    (¬ ([0, 1, 2, 3] : List ℝ).length < 3) ∧
    ((calculateRegression (stubMath (α := ℝ)) stubFmt [0, 1, 2, 3] [0, 1, 2, 10]
        .linear_theil_sen false .linear_pearson .linear_pearson false).coefficients =
      [upperMid ((([0, 1, 2, 10] : List ℝ).zip [0, 1, 2, 3]).map fun p =>
          p.1 - upperMid (pairwiseSlopes ([0, 1, 2, 3] : List ℝ) [0, 1, 2, 10]) * p.2),
       upperMid (pairwiseSlopes ([0, 1, 2, 3] : List ℝ) [0, 1, 2, 10])] ∧
    ∀ l : List ℝ, l.length % 2 = 1 → upperMid l = medianSpec l) :=
  ⟨rfl, by norm_num,
    C5_order_statistic_amended stubMath stubFmt [0, 1, 2, 3] [0, 1, 2, 10] false
      .linear_pearson .linear_pearson false rfl (by norm_num)⟩

/-- C2 counterexample: for the power family the source log-transforms the
query point before the bracket (using the log-domain x̄ and Sxx), which the
claim's formula does not.  On the concrete record regPowCx (n = 3, df = 1,
s_res = 1, x̄ = 1, Sxx = 1) at x = 1 the code returns 12.706·√(7/3) while the
claim's formula gives 12.706·√(4/3). -/
theorem C2_counterexample :
    calculateInterpolationUncertainty (JsMath.mk Real.log Real.exp Real.sqrt fun a b => a ^ b)
        1 regPowCx .power
      ≠ specInterpolationUncertainty (JsMath.mk Real.log Real.exp Real.sqrt fun a b => a ^ b)
        1 regPowCx .power := by
  have hL : calculateInterpolationUncertainty
      (JsMath.mk Real.log Real.exp Real.sqrt fun a b => a ^ b) 1 regPowCx .power
      = 12706 / 1000 * Real.sqrt (7 / 3) := by
    simp only [calculateInterpolationUncertainty, regPowCx, predictValue, predictValueCore,
      usesLogX, usesLogY, getTStudentCrit]
    norm_num [Real.log_one, Real.rpow_zero]
    positivity
  have hR : specInterpolationUncertainty
      (JsMath.mk Real.log Real.exp Real.sqrt fun a b => a ^ b) 1 regPowCx .power
      = 12706 / 1000 * Real.sqrt (4 / 3) := by
    simp only [specInterpolationUncertainty, regPowCx, predictValue, predictValueCore,
      usesLogX, usesLogY, getTStudentCrit]
    norm_num [Real.rpow_zero]
  rw [hL, hR]
  have hlt : Real.sqrt (4 / 3) < Real.sqrt (7 / 3) :=
    Real.sqrt_lt_sqrt (by norm_num) (by norm_num)
  exact ne_of_gt (by nlinarith [hlt])

/-- C2 amended: for every non-split family (with nonnegative stored residual
deviation), the interpolation uncertainty at query point x is: 0 when n < 3;
2·s_res when the family log-transforms x and x ≤ 0; the bare s_res (no
|prediction| factor) when Sxx = 0; and otherwise t_crit(df) · s_res ·
√(1 + 1/n + (xT − x̄)²/Sxx) — where xT is ln x for the power and logarithmic
families and x itself otherwise, and df is the ANOVA residual df (n − 2 without
an ANOVA record) — additionally multiplied by the magnitude of the predicted
value at x for the power and exponential families. -/
theorem C2_interp_formula_amended (x : ℝ) (reg : RegressionResult ℝ) (model : CurveModel)
    (hpm : model ≠ .piecewise_mixed) (hpl : model ≠ .piecewise_linear)
    (hs : 0 ≤ reg.residualStdDev) :
    (reg.n < 3 →
      calculateInterpolationUncertainty (JsMath.mk Real.log Real.exp Real.sqrt fun a b => a ^ b)
        x reg model = 0) ∧
    (3 ≤ reg.n → usesLogX model = true → x ≤ 0 →
      calculateInterpolationUncertainty (JsMath.mk Real.log Real.exp Real.sqrt fun a b => a ^ b)
        x reg model = reg.residualStdDev * 2) ∧
    (3 ≤ reg.n → (usesLogX model = true → 0 < x) → reg.sumSqDiffX = 0 →
      calculateInterpolationUncertainty (JsMath.mk Real.log Real.exp Real.sqrt fun a b => a ^ b)
        x reg model = reg.residualStdDev) ∧
    (3 ≤ reg.n → (usesLogX model = true → 0 < x) → reg.sumSqDiffX ≠ 0 →
      calculateInterpolationUncertainty (JsMath.mk Real.log Real.exp Real.sqrt fun a b => a ^ b)
        x reg model =
      (if usesLogY model then
        |predictValue (JsMath.mk Real.log Real.exp Real.sqrt fun a b => a ^ b)
          x model reg.coefficients none| else 1) *
        (getTStudentCrit (reg.anova.elim ((reg.n : Int) - 2) fun a => a.dfRes) *
         reg.residualStdDev *
         Real.sqrt (1 + 1 / (reg.n : ℝ) +
           ((if usesLogX model then Real.log x else x) - reg.xBar) ^ 2 / reg.sumSqDiffX))) := by
  have hu : 0 ≤ getTStudentCrit (reg.anova.elim ((reg.n : Int) - 2) fun a => a.dfRes) *
      reg.residualStdDev *
      Real.sqrt (1 + 1 / (reg.n : ℝ) +
        ((if usesLogX model then Real.log x else x) - reg.xBar) ^ 2 / reg.sumSqDiffX) :=
    mul_nonneg (mul_nonneg (getTStudentCrit_nonneg _) hs) (Real.sqrt_nonneg _)
  cases model with
  | piecewise_mixed => exact absurd rfl hpm
  | piecewise_linear => exact absurd rfl hpl
  | power =>
    refine ⟨fun hlow => ?_, fun h3 hlx hx0 => ?_, fun h3 hxp hS0 => ?_, fun h3 hxp hSxx => ?_⟩
    · simp only [calculateInterpolationUncertainty]
      rw [if_pos hlow]
    · simp only [calculateInterpolationUncertainty, usesLogX]
      rw [if_neg (not_lt.mpr h3), if_pos ⟨trivial, hx0⟩]
    · have hx := hxp rfl
      simp only [calculateInterpolationUncertainty, usesLogX]
      rw [if_neg (not_lt.mpr h3), if_neg (by simp [not_le.mpr hx]), if_pos hS0]
    · have hx := hxp rfl
      simp only [calculateInterpolationUncertainty, usesLogX, usesLogY] at hu ⊢
      rw [if_neg (not_lt.mpr h3), if_neg (by simp [not_le.mpr hx]), if_neg hSxx]
      simp only [if_true] at hu ⊢
      rw [abs_mul, abs_of_nonneg hu]
  | logarithmic =>
    refine ⟨fun hlow => ?_, fun h3 hlx hx0 => ?_, fun h3 hxp hS0 => ?_, fun h3 hxp hSxx => ?_⟩
    · simp only [calculateInterpolationUncertainty]
      rw [if_pos hlow]
    · simp only [calculateInterpolationUncertainty, usesLogX]
      rw [if_neg (not_lt.mpr h3), if_pos ⟨trivial, hx0⟩]
    · have hx := hxp rfl
      simp only [calculateInterpolationUncertainty, usesLogX]
      rw [if_neg (not_lt.mpr h3), if_neg (by simp [not_le.mpr hx]), if_pos hS0]
    · have hx := hxp rfl
      simp only [calculateInterpolationUncertainty, usesLogX, usesLogY] at hu ⊢
      rw [if_neg (not_lt.mpr h3), if_neg (by simp [not_le.mpr hx]), if_neg hSxx]
      simp
  | exponential =>
    refine ⟨fun hlow => ?_, fun h3 hlx hx0 => by simp [usesLogX] at hlx,
      fun h3 hxp hS0 => ?_, fun h3 hxp hSxx => ?_⟩
    · simp only [calculateInterpolationUncertainty]
      rw [if_pos hlow]
    · simp only [calculateInterpolationUncertainty, usesLogX]
      rw [if_neg (not_lt.mpr h3), if_neg (by simp), if_pos hS0]
    · simp only [calculateInterpolationUncertainty, usesLogX, usesLogY] at hu ⊢
      rw [if_neg (not_lt.mpr h3), if_neg (by simp), if_neg hSxx, abs_mul, abs_of_nonneg hu]
      simp
  | linear_pearson =>
    refine ⟨fun hlow => ?_, fun h3 hlx hx0 => by simp [usesLogX] at hlx,
      fun h3 hxp hS0 => ?_, fun h3 hxp hSxx => ?_⟩
    · simp only [calculateInterpolationUncertainty]
      rw [if_pos hlow]
    · simp only [calculateInterpolationUncertainty, usesLogX]
      rw [if_neg (not_lt.mpr h3), if_neg (by simp), if_pos hS0]
    · simp only [calculateInterpolationUncertainty, usesLogX, usesLogY] at hu ⊢
      rw [if_neg (not_lt.mpr h3), if_neg (by simp), if_neg hSxx]
      simp
  | linear_theil_sen =>
    refine ⟨fun hlow => ?_, fun h3 hlx hx0 => by simp [usesLogX] at hlx,
      fun h3 hxp hS0 => ?_, fun h3 hxp hSxx => ?_⟩
    · simp only [calculateInterpolationUncertainty]
      rw [if_pos hlow]
    · simp only [calculateInterpolationUncertainty, usesLogX]
      rw [if_neg (not_lt.mpr h3), if_neg (by simp), if_pos hS0]
    · simp only [calculateInterpolationUncertainty, usesLogX, usesLogY] at hu ⊢
      rw [if_neg (not_lt.mpr h3), if_neg (by simp), if_neg hSxx]
      simp
  | polynomial_2nd =>
    refine ⟨fun hlow => ?_, fun h3 hlx hx0 => by simp [usesLogX] at hlx,
      fun h3 hxp hS0 => ?_, fun h3 hxp hSxx => ?_⟩
    · simp only [calculateInterpolationUncertainty]
      rw [if_pos hlow]
    · simp only [calculateInterpolationUncertainty, usesLogX]
      rw [if_neg (not_lt.mpr h3), if_neg (by simp), if_pos hS0]
    · simp only [calculateInterpolationUncertainty, usesLogX, usesLogY] at hu ⊢
      rw [if_neg (not_lt.mpr h3), if_neg (by simp), if_neg hSxx]
      simp
  | polynomial_3rd =>
    refine ⟨fun hlow => ?_, fun h3 hlx hx0 => by simp [usesLogX] at hlx,
      fun h3 hxp hS0 => ?_, fun h3 hxp hSxx => ?_⟩
    · simp only [calculateInterpolationUncertainty]
      rw [if_pos hlow]
    · simp only [calculateInterpolationUncertainty, usesLogX]
      rw [if_neg (not_lt.mpr h3), if_neg (by simp), if_pos hS0]
    · simp only [calculateInterpolationUncertainty, usesLogX, usesLogY] at hu ⊢
      rw [if_neg (not_lt.mpr h3), if_neg (by simp), if_neg hSxx]
      simp

/-- C2 witness: the amended case analysis at the Theil-Sen-style record regTsW
(n = 3, Sxx = 1, no ANOVA record so df defaults to n − 2 = 1) and query
point 2, whose formula case is non-vacuous (3 ≤ n and Sxx ≠ 0 hold). -/
theorem C2_witness :
    (3 ≤ regTsW.n) ∧ (regTsW.sumSqDiffX ≠ 0) ∧ (0 ≤ regTsW.residualStdDev) ∧
    ((regTsW.n < 3 →
      calculateInterpolationUncertainty (JsMath.mk Real.log Real.exp Real.sqrt fun a b => a ^ b)
        2 regTsW .linear_theil_sen = 0) ∧
    (3 ≤ regTsW.n → usesLogX .linear_theil_sen = true → (2:ℝ) ≤ 0 →
      calculateInterpolationUncertainty (JsMath.mk Real.log Real.exp Real.sqrt fun a b => a ^ b)
        2 regTsW .linear_theil_sen = regTsW.residualStdDev * 2) ∧
    (3 ≤ regTsW.n → (usesLogX .linear_theil_sen = true → (0:ℝ) < 2) → regTsW.sumSqDiffX = 0 →
      calculateInterpolationUncertainty (JsMath.mk Real.log Real.exp Real.sqrt fun a b => a ^ b)
        2 regTsW .linear_theil_sen = regTsW.residualStdDev) ∧
    (3 ≤ regTsW.n → (usesLogX .linear_theil_sen = true → (0:ℝ) < 2) → regTsW.sumSqDiffX ≠ 0 →
      calculateInterpolationUncertainty (JsMath.mk Real.log Real.exp Real.sqrt fun a b => a ^ b)
        2 regTsW .linear_theil_sen =
      (if usesLogY .linear_theil_sen then
        |predictValue (JsMath.mk Real.log Real.exp Real.sqrt fun a b => a ^ b)
          2 .linear_theil_sen regTsW.coefficients none| else 1) *
        (getTStudentCrit (regTsW.anova.elim ((regTsW.n : Int) - 2) fun a => a.dfRes) *
         regTsW.residualStdDev *
         Real.sqrt (1 + 1 / (regTsW.n : ℝ) +
           ((if usesLogX .linear_theil_sen then Real.log 2 else 2) - regTsW.xBar) ^ 2 /
             regTsW.sumSqDiffX)))) :=
  ⟨by norm_num [regTsW], by norm_num [regTsW], by norm_num [regTsW],
    C2_interp_formula_amended 2 regTsW .linear_theil_sen (by decide) (by decide)
      (by norm_num [regTsW])⟩

/-- C6 counterexample: for a parametrically valid, non-exempt chosen model
whose R² does not exceed 0.95, the code sets isBestFit = false but keeps the
regression's own (non-empty) recommendation "Modelo válido." — no text naming
the ΔAICc gap is produced (the concrete recommendation does not even contain
the character Δ), because the `||` fallback only fires on an empty string and
calculateRegression never returns one. -/
theorem C6_counterexample :
    ((fitStandardModels (JsMath.mk Real.log Real.exp Real.sqrt fun a b => a ^ b) stubFmt
        [⟨0, 0, Real.exp 1, 0, 2, 95⟩, ⟨1, 1, Real.exp (29/10), 0, 2, 95⟩,
         ⟨2, 2, Real.exp (31/10), 0, 2, 95⟩, ⟨3, 3, Real.exp 5, 0, 2, 95⟩]
        .exponential .exponential).valueReg.isBestFit = some false) ∧
    ((fitStandardModels (JsMath.mk Real.log Real.exp Real.sqrt fun a b => a ^ b) stubFmt
        [⟨0, 0, Real.exp 1, 0, 2, 95⟩, ⟨1, 1, Real.exp (29/10), 0, 2, 95⟩,
         ⟨2, 2, Real.exp (31/10), 0, 2, 95⟩, ⟨3, 3, Real.exp 5, 0, 2, 95⟩]
        .exponential .exponential).valueReg.recommendationText = "Modelo válido.") ∧
    ('Δ' ∉ "Modelo válido.".toList) := by
  have hvalid := expFitFacts.1
  have hr2 := expFitFacts.2.1
  have hrec := expFitFacts.2.2
  refine ⟨?_, ?_, by decide⟩ <;>
  · simp only [fitStandardModels, List.map_cons, List.map_nil]
    rw [if_pos ⟨hvalid, by decide, by decide⟩,
        if_neg (fun h => absurd h.2 (by rw [hr2]; norm_num))]
    all_goals simp [hrec]

/-- C6 amended: whenever the chosen value model is parametrically valid and is
neither Theil-Sen nor piecewise_mixed, isBestFit = true exactly when the
chosen model's AICc is within 4 of the candidate minimum (vacuously so when no
candidate qualifies, the JS Infinity case) and its R² exceeds 0.95; otherwise
isBestFit = false and the recommendation text keeps the regression's own
recommendation whenever that is non-empty — the ΔAICc-naming template is used
only for an empty recommendation (which calculateRegression never produces).
The abbreviations vr (the chosen model's regression), mo (the candidate
minimum) and res (the returned value regression) are pinned by equations. -/
theorem C6_best_fit_flag_amended {α : Type*} [LinearOrderedField α]
    (m : JsMath α) (f : JsFmt α) (points : List (StandardCalibrationPoint α))
    (valModel uncModel : CurveModel) (vs us : CurveModel × CurveModel)
    (vr : RegressionResult α) (mo : Option α) (res : RegressionResult α)
    (hvr : vr = calculateRegression m f (points.map fun p => p.indication)
        (points.map fun p => p.referenceValue) valModel false vs.1 vs.2 false)
    (hmo : mo = candidateMinAICc m f (points.map fun p => p.indication)
        (points.map fun p => p.referenceValue))
    (hre : res = (fitStandardModels m f points valModel uncModel vs us).valueReg)
    (hvalid : vr.isParametricValid = true)
    (hpm : valModel ≠ .piecewise_mixed) (hts : valModel ≠ .linear_theil_sen) :
    (res.isBestFit = some true ↔ aiccWithin4 vr mo ∧ vr.rSquared > 95 / 100) ∧
    (¬ (aiccWithin4 vr mo ∧ vr.rSquared > 95 / 100) →
      res.isBestFit = some false ∧
      res.recommendationText =
        (if vr.recommendationText = "" then
          "Existen modelos con mejor ajuste (ΔAICc = " ++
            mo.elim "-Infinity" (fun v => f.fixStr 2 (vr.aicc - v)) ++ ")."
         else vr.recommendationText)) := by
  subst hre
  rw [hvr] at hvalid
  simp only [fitStandardModels]
  rw [if_pos ⟨hvalid, hpm, hts⟩]
  rw [← hvr]
  simp only [← hmo]
  clear hvalid hvr
  cases mo with
  | none =>
    have hw : aiccWithin4 vr none := by intro v hv; cases hv
    by_cases hr : vr.rSquared > 95 / 100
    · rw [if_pos (by simpa using hr)]
      refine ⟨?_, ?_⟩
      · simp [hw, hr]
      · intro hcon; exact absurd ⟨hw, hr⟩ hcon
    · rw [if_neg (by simpa using hr)]
      refine ⟨?_, ?_⟩
      · simp [hr]
      · intro hcon
        exact ⟨by simp, by simp [Option.elim]⟩
  | some v =>
    have hw : aiccWithin4 vr (some v) ↔ vr.aicc - v ≤ 4 := by
      constructor
      · intro h; exact h v rfl
      · intro h v hv; cases hv; exact h
    by_cases hd : vr.aicc - v ≤ 4 <;> by_cases hr : vr.rSquared > 95 / 100
    · rw [if_pos (by simp [hd, hr])]
      exact ⟨by simp [hw, hd, hr], fun hcon => absurd ⟨hw.mpr hd, hr⟩ hcon⟩
    · rw [if_neg (by simp [hr])]
      exact ⟨by simp [hw, hr], fun hcon => ⟨by simp, by simp [Option.elim]⟩⟩
    · rw [if_neg (by simp [hd])]
      refine ⟨?_, fun hcon => ⟨by simp, by simp [Option.elim]⟩⟩
      constructor
      · intro hfalse; simp at hfalse
      · intro hcon; exact absurd (hw.mp hcon.1) hd
    · rw [if_neg (by simp [hr])]
      exact ⟨by simp [hw, hr], fun hcon => ⟨by simp, by simp [Option.elim]⟩⟩

/-- C6 witness: the amended description at the concrete exponential fit of
expFitFacts (valid, not exempt, R² = 3721/4010 ≤ 0.95). -/
theorem C6_witness :
    ((calculateRegression (JsMath.mk Real.log Real.exp Real.sqrt fun a b => a ^ b) stubFmt
        [0, 1, 2, 3] [Real.exp 1, Real.exp (29/10), Real.exp (31/10), Real.exp 5]
        .exponential).isParametricValid = true) ∧
    (CurveModel.exponential ≠ CurveModel.piecewise_mixed) ∧
    (CurveModel.exponential ≠ CurveModel.linear_theil_sen) ∧
    (((fitStandardModels (JsMath.mk Real.log Real.exp Real.sqrt fun a b => a ^ b) stubFmt
        [⟨0, 0, Real.exp 1, 0, 2, 95⟩, ⟨1, 1, Real.exp (29/10), 0, 2, 95⟩,
         ⟨2, 2, Real.exp (31/10), 0, 2, 95⟩, ⟨3, 3, Real.exp 5, 0, 2, 95⟩]
        .exponential .exponential).valueReg.isBestFit = some true ↔
      aiccWithin4 (calculateRegression
          (JsMath.mk Real.log Real.exp Real.sqrt fun a b => a ^ b) stubFmt
          [0, 1, 2, 3] [Real.exp 1, Real.exp (29/10), Real.exp (31/10), Real.exp 5]
          .exponential)
        (candidateMinAICc (JsMath.mk Real.log Real.exp Real.sqrt fun a b => a ^ b) stubFmt
          [0, 1, 2, 3] [Real.exp 1, Real.exp (29/10), Real.exp (31/10), Real.exp 5]) ∧
      (calculateRegression (JsMath.mk Real.log Real.exp Real.sqrt fun a b => a ^ b) stubFmt
          [0, 1, 2, 3] [Real.exp 1, Real.exp (29/10), Real.exp (31/10), Real.exp 5]
          .exponential).rSquared > 95 / 100) ∧
    (¬ (aiccWithin4 (calculateRegression
          (JsMath.mk Real.log Real.exp Real.sqrt fun a b => a ^ b) stubFmt
          [0, 1, 2, 3] [Real.exp 1, Real.exp (29/10), Real.exp (31/10), Real.exp 5]
          .exponential)
        (candidateMinAICc (JsMath.mk Real.log Real.exp Real.sqrt fun a b => a ^ b) stubFmt
          [0, 1, 2, 3] [Real.exp 1, Real.exp (29/10), Real.exp (31/10), Real.exp 5]) ∧
        (calculateRegression (JsMath.mk Real.log Real.exp Real.sqrt fun a b => a ^ b) stubFmt
          [0, 1, 2, 3] [Real.exp 1, Real.exp (29/10), Real.exp (31/10), Real.exp 5]
          .exponential).rSquared > 95 / 100) →
      (fitStandardModels (JsMath.mk Real.log Real.exp Real.sqrt fun a b => a ^ b) stubFmt
        [⟨0, 0, Real.exp 1, 0, 2, 95⟩, ⟨1, 1, Real.exp (29/10), 0, 2, 95⟩,
         ⟨2, 2, Real.exp (31/10), 0, 2, 95⟩, ⟨3, 3, Real.exp 5, 0, 2, 95⟩]
        .exponential .exponential).valueReg.isBestFit = some false ∧
      (fitStandardModels (JsMath.mk Real.log Real.exp Real.sqrt fun a b => a ^ b) stubFmt
        [⟨0, 0, Real.exp 1, 0, 2, 95⟩, ⟨1, 1, Real.exp (29/10), 0, 2, 95⟩,
         ⟨2, 2, Real.exp (31/10), 0, 2, 95⟩, ⟨3, 3, Real.exp 5, 0, 2, 95⟩]
        .exponential .exponential).valueReg.recommendationText =
        (if (calculateRegression (JsMath.mk Real.log Real.exp Real.sqrt fun a b => a ^ b)
            stubFmt [0, 1, 2, 3]
            [Real.exp 1, Real.exp (29/10), Real.exp (31/10), Real.exp 5]
            .exponential).recommendationText = "" then
          "Existen modelos con mejor ajuste (ΔAICc = " ++
            (candidateMinAICc (JsMath.mk Real.log Real.exp Real.sqrt fun a b => a ^ b)
                stubFmt [0, 1, 2, 3]
                [Real.exp 1, Real.exp (29/10), Real.exp (31/10), Real.exp 5]).elim
              "-Infinity" (fun v => stubFmt.fixStr 2
                ((calculateRegression (JsMath.mk Real.log Real.exp Real.sqrt fun a b => a ^ b)
                  stubFmt [0, 1, 2, 3]
                  [Real.exp 1, Real.exp (29/10), Real.exp (31/10), Real.exp 5]
                  .exponential).aicc - v)) ++ ")."
         else (calculateRegression (JsMath.mk Real.log Real.exp Real.sqrt fun a b => a ^ b)
            stubFmt [0, 1, 2, 3]
            [Real.exp 1, Real.exp (29/10), Real.exp (31/10), Real.exp 5]
            .exponential).recommendationText))) :=
  ⟨expFitFacts.1, by decide, by decide,
    C6_best_fit_flag_amended (JsMath.mk Real.log Real.exp Real.sqrt fun a b => a ^ b) stubFmt
      [⟨0, 0, Real.exp 1, 0, 2, 95⟩, ⟨1, 1, Real.exp (29/10), 0, 2, 95⟩,
       ⟨2, 2, Real.exp (31/10), 0, 2, 95⟩, ⟨3, 3, Real.exp 5, 0, 2, 95⟩]
      .exponential .exponential (.linear_pearson, .linear_pearson)
      (.linear_pearson, .linear_pearson) _ _ _ rfl rfl rfl expFitFacts.1
      (by decide) (by decide)⟩


/-- C1: for every test point processed by calculateResults (with the standard's
regressions cached), the reported expanded uncertainty is k = 2 times the
root-sum-of-squares of the reference uncertainty and resolution/√12, where the
reference uncertainty is itself the root-sum-of-squares of the uncertainty-model
prediction at the predicted true value and the value-model interpolation
uncertainty at the corrected reading. -/
theorem C1_expanded_uncertainty_formula {α : Type*} [LinearOrderedField α]
    (m : JsMath α) (f : JsFmt α) (points : List (CalibrationPoint α))
    (instrument : Instrument α) (standard : ReferenceStandard α)
    (sequence : SequenceType) (fluidDensity heightDiff localGravity : α)
    (vr ur : RegressionResult α) (i : Nat)
    (hv : standard.valueRegression = some vr)
    (hu : standard.uncertaintyRegression = some ur)
    (hi : i < points.length) :
    ((calculateResults m f points instrument standard sequence fluidDensity
        heightDiff localGravity).getD i defaultCalibResult).expandedUncertainty =
      (let corrected := (points.getD i defaultCalibPoint).standardReading +
        fluidDensity * localGravity * (heightDiff / 100) / 100000
      let trueV := predictValue m corrected standard.valueModelType vr.coefficients none
      let uModel := calculateInterpolationUncertainty m corrected vr standard.valueModelType
      let uRefStd := predictValue m trueV standard.uncertaintyModelType ur.coefficients none
      m.sqrt ((m.sqrt (uRefStd ^ 2 + uModel ^ 2)) ^ 2 +
        (instrument.resolution / m.sqrt 12) ^ 2) * 2) := by
  have hlen : i < (calculateResults m f points instrument standard sequence
      fluidDensity heightDiff localGravity).length := by
    simpa [calculateResults] using hi
  rw [List.getD_eq_getElem _ _ hlen, List.getD_eq_getElem _ _ hi]
  simp only [calculateResults, hv, hu, List.getElem_map]

/-- C1 witness: the expanded-uncertainty decomposition evaluated on a concrete
single-point run with cached Theil-Sen regressions. -/
theorem C1_witness :
    standW.valueRegression = some regTsW ∧
    standW.uncertaintyRegression = some regTsW ∧
    0 < [defaultCalibPoint (α := ℝ)].length ∧
    ((calculateResults stubMath stubFmt [defaultCalibPoint] instrW standW .A 0 0 0).getD 0
        defaultCalibResult).expandedUncertainty =
      (let corrected := (([defaultCalibPoint] : List (CalibrationPoint ℝ)).getD 0
          defaultCalibPoint).standardReading + 0 * 0 * (0 / 100) / 100000
      let trueV := predictValue stubMath corrected standW.valueModelType regTsW.coefficients none
      let uModel := calculateInterpolationUncertainty stubMath corrected regTsW standW.valueModelType
      let uRefStd := predictValue stubMath trueV standW.uncertaintyModelType regTsW.coefficients none
      stubMath.sqrt ((stubMath.sqrt (uRefStd ^ 2 + uModel ^ 2)) ^ 2 +
        (instrW.resolution / stubMath.sqrt 12) ^ 2) * 2) :=
  ⟨rfl, rfl, by decide,
    C1_expanded_uncertainty_formula stubMath stubFmt [defaultCalibPoint] instrW standW
      .A 0 0 0 regTsW regTsW 0 rfl rfl (by decide)⟩

end VaLiA
